import Mathlib

/-!
Shallow embedding of the SIP collector of `asterisk_exporter`
(`collector/sip_collector.go`) together with proofs of the specified
properties of `NewSipCollector`, `Describe`, `Collect`,
`collectSipMetrics` and `updateMetrics`.

Channel emission (`ch <- m`) is modelled by returning the list of values
sent on the channel, in send order.  Gauge values are modelled as `Int`
(every emitted value is a converted machine integer or the literal 0/1,
so the `float64` conversion is exact).  Logging is I/O and not part of
the functional contract; it is modelled as an inert token.
-/

namespace AsteriskExporter

/-- Error values produced by a failing data-source query. -/
abbrev Err := String

/-- A metric descriptor, as built by `prometheus.NewDesc`: fully qualified
name, help text, and the ordered variable label names.  The collector always
passes `nil` const labels, so they are omitted. -/
structure Desc where
  fqName : String
  help : String
  variableLabels : List String
  deriving DecidableEq, Repr

/-- `prometheus.BuildFQName`: joins the non-empty parts of
namespace / subsystem / name with an underscore; an empty metric name
yields the empty string. -/
def buildFQName (ns ss name : String) : String :=
  if name = "" then ""
  else if ns ≠ "" ∧ ss ≠ "" then ns ++ "_" ++ ss ++ "_" ++ name
  else if ns ≠ "" then ns ++ "_" ++ name
  else if ss ≠ "" then ss ++ "_" ++ name
  else name

/-- One emitted metric sample, as built by `prometheus.MustNewConstMetric`
with `prometheus.GaugeValue`: descriptor, numeric value, positional label
values. -/
structure Sample where
  desc : Desc
  value : Int
  labelValues : List String
  deriving DecidableEq, Repr

/-- Modelled from the spec: the `cmd` package is not under `src/`.  A peer
record of the snapshot ("entity rows within the snapshot; each carries an
identifying name/username and a status/state string"); the call sites in
`updateMetrics` read `peer.Name` and `peer.Status`. -/
structure PeerRecord where
  Name : String
  Status : String
  deriving DecidableEq, Repr

/-- Modelled from the spec: the `cmd` package is not under `src/`.  A
registration record; the call sites in `updateMetrics` read
`registry.Username` and `registry.State`. -/
structure RegistrationRecord where
  Username : String
  State : String
  deriving DecidableEq, Repr

/-- Modelled from the spec: the `cmd` package is not under `src/`.  The
`sip show peers` snapshot fragment, with the scalar count fields and the
per-peer list read by `updateMetrics`. -/
structure PeersInfo where
  MonitoredOnline : Int
  MonitoredOffline : Int
  UnmonitoredOnline : Int
  UnmonitoredOffline : Int
  PeersStatusUnknown : Int
  PeersStatusQualified : Int
  IndividualPeers : List PeerRecord
  deriving DecidableEq, Repr, Inhabited

/-- Modelled from the spec: the `cmd` package is not under `src/`.  The
`sip show channels` / subscriptions / channelstats snapshot fragment. -/
structure SipChannelsInfo where
  ActiveSipDialogs : Int
  ActiveSipSubscriptions : Int
  ActiveSipChannels : Int
  deriving DecidableEq, Repr, Inhabited

/-- Modelled from the spec: the `cmd` package is not under `src/`.  The
`sip show users` snapshot fragment. -/
structure UsersInfo where
  Users : Int
  deriving DecidableEq, Repr, Inhabited

/-- Modelled from the spec: the `cmd` package is not under `src/`.  The
`sip show registry` snapshot fragment. -/
structure RegistriesInfo where
  TotalRegistrations : Int
  OnlineRegistrations : Int
  OfflineRegistrations : Int
  IndividualRegistrations : List RegistrationRecord
  deriving DecidableEq, Repr, Inhabited

/-- Modelled from the spec: the `cmd` package is not under `src/`.  Per the
spec the data source offers four "query operations, each returning a typed
snapshot fragment or failing"; a `CmdRunner` is modelled by the outcome of
each of its four fragment queries. -/
structure CmdRunner where
  peersQuery : Except Err PeersInfo
  sipChannelsQuery : Except Err SipChannelsInfo
  usersQuery : Except Err UsersInfo
  registriesQuery : Except Err RegistriesInfo
  deriving Repr

/-- Modelled from the spec: `cmd.CmdRunner.PeersInfo` is not under `src/`.
The call site in `collectSipMetrics` consumes a bare value, so a failed
query yields the zero-valued fragment ("derived fields are assumed
structurally present — zero-valued, not absent, when the domain has no
data"). -/
def CmdRunner.PeersInfo (c : CmdRunner) : PeersInfo :=
  c.peersQuery.toOption.getD default

/-- Modelled from the spec: `cmd.CmdRunner.SipChannelsInfo`, as
`CmdRunner.PeersInfo`. -/
def CmdRunner.SipChannelsInfo (c : CmdRunner) : SipChannelsInfo :=
  c.sipChannelsQuery.toOption.getD default

/-- Modelled from the spec: `cmd.CmdRunner.UsersInfo`, as
`CmdRunner.PeersInfo`. -/
def CmdRunner.UsersInfo (c : CmdRunner) : UsersInfo :=
  c.usersQuery.toOption.getD default

/-- Modelled from the spec: `cmd.CmdRunner.RegistriesInfo`, as
`CmdRunner.PeersInfo`. -/
def CmdRunner.RegistriesInfo (c : CmdRunner) : RegistriesInfo :=
  c.registriesQuery.toOption.getD default

/-- Whether an `Except` holds an error. -/
def isErr {α : Type} : Except Err α → Bool
  | .error _ => true
  | .ok _ => false

/-- Whether any of the four fragment queries of a runner failed. -/
def anyFragmentFailed (c : CmdRunner) : Bool :=
  isErr c.peersQuery || isErr c.sipChannelsQuery ||
    isErr c.usersQuery || isErr c.registriesQuery

/-- The `sipMetrics` aggregate of `sip_collector.go`. -/
structure SipMetrics where
  PeersInfo : PeersInfo
  SipChannelsInfo : SipChannelsInfo
  UsersInfo : UsersInfo
  RegistriesInfo : RegistriesInfo
  deriving DecidableEq, Repr

/-- Logging is out of the functional contract; a logger is an inert token. -/
abbrev Logger := Nat

/-- The `sipCollector` struct: the injected runner, logger and shared
health descriptor, plus the sixteen owned descriptors. -/
structure SipCollector where
  cmdRunner : CmdRunner
  logger : Logger
  totalPeers : Desc
  totalMonitoredOnline : Desc
  totalMonitoredOffline : Desc
  totalUnmonitoredOnline : Desc
  totalUnmonitoredOffline : Desc
  totalSipStatusUnknown : Desc
  totalSipStatusQualified : Desc
  peerStatus : Desc
  dialogsActive : Desc
  subscriptionsActive : Desc
  channelsActive : Desc
  users : Desc
  totalRegistrations : Desc
  onlineRegistrationsCount : Desc
  offlineRegistrationsCount : Desc
  registrationStatus : Desc
  collectorError : Desc

/-- `NewSipCollector(prefix, cmdRunner, logger, collectorError)`:
builds every owned descriptor with `prometheus.NewDesc` over
`BuildFQName(prefix, "sip", metric)`. -/
def NewSipCollector (pfx : String) (cmdRunner : CmdRunner) (logger : Logger)
    (collectorError : Desc) : SipCollector :=
  { cmdRunner := cmdRunner
    logger := logger
    collectorError := collectorError
    totalPeers :=
      ⟨buildFQName pfx "sip" "current_peers", "Number of SIP peers", []⟩
    totalMonitoredOnline :=
      ⟨buildFQName pfx "sip" "current_monitored_online",
        "Number of currently monitored online SIP", []⟩
    totalMonitoredOffline :=
      ⟨buildFQName pfx "sip" "current_monitored_offline",
        "Number of currently monitored offline SIP", []⟩
    totalUnmonitoredOnline :=
      ⟨buildFQName pfx "sip" "current_unmonitored_online",
        "Number of currently unmonitored online SIP", []⟩
    totalUnmonitoredOffline :=
      ⟨buildFQName pfx "sip" "current_unmonitored_offline",
        "Number of currently unmonitored offline SIP", []⟩
    totalSipStatusUnknown :=
      ⟨buildFQName pfx "sip" "current_unknown",
        "Current number of unknown SIP", []⟩
    totalSipStatusQualified :=
      ⟨buildFQName pfx "sip" "current_qualified",
        "Current number of qualified SIP", []⟩
    peerStatus :=
      ⟨buildFQName pfx "sip" "peer_status",
        "Status of individual SIP peers", ["peer_name", "peer_status"]⟩
    dialogsActive :=
      ⟨buildFQName pfx "sip" "active_dialogs",
        "Number of active SIP dialogs", []⟩
    subscriptionsActive :=
      ⟨buildFQName pfx "sip" "active_subscriptions",
        "Number of active SIP subscriptions", []⟩
    channelsActive :=
      ⟨buildFQName pfx "sip" "active_channels",
        "Number of active SIP channels", []⟩
    users :=
      ⟨buildFQName pfx "sip" "users", "Number of users", []⟩
    totalRegistrations :=
      ⟨buildFQName pfx "sip" "total_registrations",
        "Total number of SIP registrations", []⟩
    onlineRegistrationsCount :=
      ⟨buildFQName pfx "sip" "registered_count",
        "Number of successfully registered SIP accounts", []⟩
    offlineRegistrationsCount :=
      ⟨buildFQName pfx "sip" "unregistered_count",
        "Number of unregistered SIP accounts", []⟩
    registrationStatus :=
      ⟨buildFQName pfx "sip" "registration_status",
        "Status of individual SIP registrations", ["username", "state"]⟩ }

/-- `sipCollector.Name()`. -/
def SipCollector.Name (_ : SipCollector) : String := "sip"

/-- The descriptors owned by the collector (every `Desc` field built by
`NewSipCollector`; the shared `collectorError` is injected, not owned),
in struct declaration order. -/
def SipCollector.ownedDescs (c : SipCollector) : List Desc :=
  [c.totalPeers, c.totalMonitoredOnline, c.totalMonitoredOffline,
   c.totalUnmonitoredOnline, c.totalUnmonitoredOffline,
   c.totalSipStatusUnknown, c.totalSipStatusQualified, c.peerStatus,
   c.dialogsActive, c.subscriptionsActive, c.channelsActive, c.users,
   c.totalRegistrations, c.onlineRegistrationsCount,
   c.offlineRegistrationsCount, c.registrationStatus]

/-- `sipCollector.Describe(ch)`: the sixteen sends on `ch`, in source
order. -/
def SipCollector.Describe (c : SipCollector) : List Desc :=
  [c.totalPeers, c.totalMonitoredOnline, c.totalMonitoredOffline,
   c.totalUnmonitoredOnline, c.totalUnmonitoredOffline,
   c.totalSipStatusUnknown, c.totalSipStatusQualified, c.peerStatus,
   c.dialogsActive, c.subscriptionsActive, c.channelsActive, c.users,
   c.totalRegistrations, c.onlineRegistrationsCount,
   c.offlineRegistrationsCount, c.registrationStatus]

/-- `sipCollector.updateMetrics(values, ch)`: the sends on `ch`, in source
order.  Note that no sample is built on `c.totalPeers`. -/
def SipCollector.updateMetrics (c : SipCollector) (values : SipMetrics) :
    List Sample :=
  [⟨c.totalMonitoredOnline, values.PeersInfo.MonitoredOnline, []⟩,
   ⟨c.totalMonitoredOffline, values.PeersInfo.MonitoredOffline, []⟩,
   ⟨c.totalUnmonitoredOnline, values.PeersInfo.UnmonitoredOnline, []⟩,
   ⟨c.totalUnmonitoredOffline, values.PeersInfo.UnmonitoredOffline, []⟩,
   ⟨c.totalSipStatusUnknown, values.PeersInfo.PeersStatusUnknown, []⟩,
   ⟨c.totalSipStatusQualified, values.PeersInfo.PeersStatusQualified, []⟩]
  ++ values.PeersInfo.IndividualPeers.map
      (fun peer => ⟨c.peerStatus, 1, [peer.Name, peer.Status]⟩)
  ++ [⟨c.dialogsActive, values.SipChannelsInfo.ActiveSipDialogs, []⟩,
      ⟨c.subscriptionsActive, values.SipChannelsInfo.ActiveSipSubscriptions, []⟩,
      ⟨c.channelsActive, values.SipChannelsInfo.ActiveSipChannels, []⟩,
      ⟨c.users, values.UsersInfo.Users, []⟩,
      ⟨c.totalRegistrations, values.RegistriesInfo.TotalRegistrations, []⟩,
      ⟨c.onlineRegistrationsCount, values.RegistriesInfo.OnlineRegistrations, []⟩,
      ⟨c.offlineRegistrationsCount, values.RegistriesInfo.OfflineRegistrations, []⟩]
  ++ values.RegistriesInfo.IndividualRegistrations.map
      (fun registry => ⟨c.registrationStatus, 1, [registry.Username, registry.State]⟩)

/-- `collectSipMetrics(c)`: builds the aggregate from the four fragment
queries and returns it with a `nil` error, unconditionally. -/
def collectSipMetrics (c : CmdRunner) : Except Err SipMetrics :=
  Except.ok
    { PeersInfo := c.PeersInfo
      SipChannelsInfo := c.SipChannelsInfo
      UsersInfo := c.UsersInfo
      RegistriesInfo := c.RegistriesInfo }

/-- The body of `sipCollector.Collect` after the `collectSipMetrics` call,
as a function of that call's result: on error, send the health sample with
value 1 and return; on success, send the health sample with value 0 and
then the domain samples of `updateMetrics`. -/
def SipCollector.collectBranch (c : SipCollector)
    (fetched : Except Err SipMetrics) : List Sample :=
  match fetched with
  | .error _ => [⟨c.collectorError, 1, [c.Name]⟩]
  | .ok metrics => ⟨c.collectorError, 0, [c.Name]⟩ :: c.updateMetrics metrics

/-- `sipCollector.Collect(ch)`: the sends on `ch`, in source order. -/
def SipCollector.Collect (c : SipCollector) : List Sample :=
  c.collectBranch (collectSipMetrics c.cmdRunner)

/-- The aggregate `collectSipMetrics` builds from a runner (its `.ok`
payload), named for use in theorem statements. -/
def fetchOk (c : CmdRunner) : SipMetrics :=
  { PeersInfo := c.PeersInfo
    SipChannelsInfo := c.SipChannelsInfo
    UsersInfo := c.UsersInfo
    RegistriesInfo := c.RegistriesInfo }

/-- The sublist of samples emitted on a given descriptor, in emission
order. -/
def samplesFor (d : Desc) (samples : List Sample) : List Sample :=
  samples.filter (fun s => decide (s.desc = d))

/-- Modelled from the spec: the shared health descriptor is built outside
this collector ("shared across all collectors in the registry") and is
"parameterized per emission by the collector's own name as a label", so it
declares one variable label. -/
def exHealthDesc : Desc :=
  ⟨"asterisk_exporter_collector_error",
    "Error status of the collector", ["collector"]⟩

/-- The worked snapshot of the spec: `MonitoredOnline=3, MonitoredOffline=1,
PeersStatusUnknown=0, PeersStatusQualified=2` and the two peers alice/bob. -/
def exPeersInfo : PeersInfo :=
  { MonitoredOnline := 3
    MonitoredOffline := 1
    UnmonitoredOnline := 0
    UnmonitoredOffline := 0
    PeersStatusUnknown := 0
    PeersStatusQualified := 2
    IndividualPeers := [⟨"alice", "OK"⟩, ⟨"bob", "UNKNOWN"⟩] }

/-- A concrete channels fragment. -/
def exChannelsInfo : SipChannelsInfo := ⟨4, 5, 6⟩

/-- A concrete users fragment. -/
def exUsersInfo : UsersInfo := ⟨7⟩

/-- A concrete registries fragment with zero registrations. -/
def exRegistriesInfo : RegistriesInfo := ⟨0, 0, 0, []⟩

/-- A runner on which every fragment query succeeds. -/
def exRunner : CmdRunner :=
  ⟨.ok exPeersInfo, .ok exChannelsInfo, .ok exUsersInfo, .ok exRegistriesInfo⟩

/-- A concrete collector over the successful runner. -/
def exCollector : SipCollector :=
  NewSipCollector "asterisk" exRunner 0 exHealthDesc

/-- A runner whose peers fragment query fails. -/
def failRunner : CmdRunner :=
  ⟨.error "exit status 1", .ok exChannelsInfo, .ok exUsersInfo,
    .ok exRegistriesInfo⟩

section Theorems

/-! ## Helper lemmas -/

/-- Two descriptors with different help texts differ. -/
theorem Desc.ne_of_help_ne {d₁ d₂ : Desc} (h : d₁.help ≠ d₂.help) :
    d₁ ≠ d₂ :=
  fun e => h (congrArg Desc.help e)

/-- Filtering a mapped list whose images all fail the predicate gives `[]`. -/
theorem filter_map_eq_nil {α β : Type} {f : α → β} {p : β → Bool}
    (h : ∀ a, p (f a) = false) (l : List α) : (l.map f).filter p = [] := by
  induction l with
  | nil => rfl
  | cons a l ih => simp [h, ih]

/-- Filtering a mapped list whose images all satisfy the predicate keeps
the whole list. -/
theorem filter_map_eq_self {α β : Type} {f : α → β} {p : β → Bool}
    (h : ∀ a, p (f a) = true) (l : List α) : (l.map f).filter p = l.map f := by
  induction l with
  | nil => rfl
  | cons a l ih => simp [h, ih]

/-! ## C1: error branch of Collect -/

/-- C1: on a scrape whose data-source call returns an error, `Collect`
emits exactly one sample — the shared health descriptor with value 1 — and
returns immediately; no domain sample is emitted on that scrape. -/
theorem collect_error_branch (pfx : String) (r : CmdRunner) (lg : Logger)
    (ce : Desc) (e : Err) :
    (NewSipCollector pfx r lg ce).collectBranch (.error e) =
      [⟨ce, 1, ["sip"]⟩] := by
  rfl

/-! ## C2: success branch emits health 0 first -/

/-- C2: on every scrape whose data-source call succeeds, `Collect` emits
the health sample with value 0, labelled with the collector's name `"sip"`,
as the very first sample, before any domain sample. -/
theorem collect_success_health_first (pfx : String) (r : CmdRunner)
    (lg : Logger) (ce : Desc) :
    (NewSipCollector pfx r lg ce).Collect =
      ⟨ce, 0, [(NewSipCollector pfx r lg ce).Name]⟩ ::
        (NewSipCollector pfx r lg ce).updateMetrics (fetchOk r) := by
  rfl

/-! ## C4: fragment failures are not surfaced -/

/-- C4 counterexample: a runner whose peers fragment query fails, on which
`collectSipMetrics` nevertheless returns success (a `nil` error), refuting
"the fetch step returns an error whenever any of its fragment queries
fails". -/
theorem collectSipMetrics_fail_not_error :
    anyFragmentFailed failRunner = true ∧
      collectSipMetrics failRunner = Except.ok (fetchOk failRunner) := by
  constructor
  · rfl
  · rfl

/-- C4 amended: `collectSipMetrics` never returns an error — even when a
fragment query fails it returns the aggregate built from the four query
results with a `nil` error, so no fragment failure is fatal for a scrape. -/
theorem collectSipMetrics_never_errors (r : CmdRunner) :
    collectSipMetrics r = Except.ok (fetchOk r) := by
  rfl

/-! ## C3: scalar fields and the missing total-peers sample -/

/-- C3 counterexample: on a concrete successful scrape, `Collect` emits no
sample on the `totalPeers` descriptor, even though that descriptor is owned
by the collector and advertised by `Describe` — refuting "all derived
metrics (including the total-peers count whose descriptor is owned by the
collector) are emitted". -/
theorem totalPeers_sample_absent :
    samplesFor exCollector.totalPeers exCollector.Collect = [] ∧
      exCollector.totalPeers ∈ exCollector.Describe := by
  decide

/-- C3 amended: for every snapshot obtained successfully, `Collect` emits
exactly one gauge sample for each scalar count field read by
`updateMetrics`, with that field's value, the corresponding descriptor and
no labels, unconditionally (no partial-failure mode); the total-peers
descriptor, although owned and described, never has a sample emitted. -/
theorem scalar_fields_each_emitted_once (pfx : String) (r : CmdRunner)
    (lg : Logger) (ce : Desc) (m : SipMetrics) :
    samplesFor (NewSipCollector pfx r lg ce).totalMonitoredOnline
        ((NewSipCollector pfx r lg ce).updateMetrics m) =
      [⟨(NewSipCollector pfx r lg ce).totalMonitoredOnline,
        m.PeersInfo.MonitoredOnline, []⟩] ∧
    samplesFor (NewSipCollector pfx r lg ce).totalMonitoredOffline
        ((NewSipCollector pfx r lg ce).updateMetrics m) =
      [⟨(NewSipCollector pfx r lg ce).totalMonitoredOffline,
        m.PeersInfo.MonitoredOffline, []⟩] ∧
    samplesFor (NewSipCollector pfx r lg ce).totalUnmonitoredOnline
        ((NewSipCollector pfx r lg ce).updateMetrics m) =
      [⟨(NewSipCollector pfx r lg ce).totalUnmonitoredOnline,
        m.PeersInfo.UnmonitoredOnline, []⟩] ∧
    samplesFor (NewSipCollector pfx r lg ce).totalUnmonitoredOffline
        ((NewSipCollector pfx r lg ce).updateMetrics m) =
      [⟨(NewSipCollector pfx r lg ce).totalUnmonitoredOffline,
        m.PeersInfo.UnmonitoredOffline, []⟩] ∧
    samplesFor (NewSipCollector pfx r lg ce).totalSipStatusUnknown
        ((NewSipCollector pfx r lg ce).updateMetrics m) =
      [⟨(NewSipCollector pfx r lg ce).totalSipStatusUnknown,
        m.PeersInfo.PeersStatusUnknown, []⟩] ∧
    samplesFor (NewSipCollector pfx r lg ce).totalSipStatusQualified
        ((NewSipCollector pfx r lg ce).updateMetrics m) =
      [⟨(NewSipCollector pfx r lg ce).totalSipStatusQualified,
        m.PeersInfo.PeersStatusQualified, []⟩] ∧
    samplesFor (NewSipCollector pfx r lg ce).dialogsActive
        ((NewSipCollector pfx r lg ce).updateMetrics m) =
      [⟨(NewSipCollector pfx r lg ce).dialogsActive,
        m.SipChannelsInfo.ActiveSipDialogs, []⟩] ∧
    samplesFor (NewSipCollector pfx r lg ce).subscriptionsActive
        ((NewSipCollector pfx r lg ce).updateMetrics m) =
      [⟨(NewSipCollector pfx r lg ce).subscriptionsActive,
        m.SipChannelsInfo.ActiveSipSubscriptions, []⟩] ∧
    samplesFor (NewSipCollector pfx r lg ce).channelsActive
        ((NewSipCollector pfx r lg ce).updateMetrics m) =
      [⟨(NewSipCollector pfx r lg ce).channelsActive,
        m.SipChannelsInfo.ActiveSipChannels, []⟩] ∧
    samplesFor (NewSipCollector pfx r lg ce).users
        ((NewSipCollector pfx r lg ce).updateMetrics m) =
      [⟨(NewSipCollector pfx r lg ce).users, m.UsersInfo.Users, []⟩] ∧
    samplesFor (NewSipCollector pfx r lg ce).totalRegistrations
        ((NewSipCollector pfx r lg ce).updateMetrics m) =
      [⟨(NewSipCollector pfx r lg ce).totalRegistrations,
        m.RegistriesInfo.TotalRegistrations, []⟩] ∧
    samplesFor (NewSipCollector pfx r lg ce).onlineRegistrationsCount
        ((NewSipCollector pfx r lg ce).updateMetrics m) =
      [⟨(NewSipCollector pfx r lg ce).onlineRegistrationsCount,
        m.RegistriesInfo.OnlineRegistrations, []⟩] ∧
    samplesFor (NewSipCollector pfx r lg ce).offlineRegistrationsCount
        ((NewSipCollector pfx r lg ce).updateMetrics m) =
      [⟨(NewSipCollector pfx r lg ce).offlineRegistrationsCount,
        m.RegistriesInfo.OfflineRegistrations, []⟩] ∧
    samplesFor (NewSipCollector pfx r lg ce).totalPeers
        ((NewSipCollector pfx r lg ce).updateMetrics m) = [] := by
  simp [samplesFor, SipCollector.updateMetrics, NewSipCollector,
    List.filter_append, filter_map_eq_nil, filter_map_eq_self, Desc.mk.injEq]

/-! ## C5: the worked example of the spec -/

/-- C5: on the spec's worked snapshot (`MonitoredOnline=3`,
`MonitoredOffline=1`, `PeersStatusUnknown=0`, `PeersStatusQualified=2`,
peers alice/OK and bob/UNKNOWN), `Collect` emits scalar samples 3, 1, 0, 2
on the corresponding descriptors, plus exactly two labeled peer-status
samples, each with value 1 and labels ("alice","OK") and
("bob","UNKNOWN"), in that order. -/
theorem worked_example_samples :
    samplesFor exCollector.totalMonitoredOnline exCollector.Collect =
      [⟨exCollector.totalMonitoredOnline, 3, []⟩] ∧
    samplesFor exCollector.totalMonitoredOffline exCollector.Collect =
      [⟨exCollector.totalMonitoredOffline, 1, []⟩] ∧
    samplesFor exCollector.totalSipStatusUnknown exCollector.Collect =
      [⟨exCollector.totalSipStatusUnknown, 0, []⟩] ∧
    samplesFor exCollector.totalSipStatusQualified exCollector.Collect =
      [⟨exCollector.totalSipStatusQualified, 2, []⟩] ∧
    samplesFor exCollector.peerStatus exCollector.Collect =
      [⟨exCollector.peerStatus, 1, ["alice", "OK"]⟩,
       ⟨exCollector.peerStatus, 1, ["bob", "UNKNOWN"]⟩] := by
  decide

/-! ## C6: per-entity presence samples -/

/-- C6: for every successful snapshot, the samples emitted on the
peer-status (resp. registration-status) descriptor are exactly one sample
per entity of the snapshot, in snapshot order, each with value fixed at 1
and label values the entity's identifying name and status string; an
entity list absent from the snapshot yields no sample at all (the empty
list maps to zero samples, not to zero-valued ones). -/
theorem per_entity_samples (pfx : String) (r : CmdRunner) (lg : Logger)
    (ce : Desc) (m : SipMetrics) :
    samplesFor (NewSipCollector pfx r lg ce).peerStatus
        ((NewSipCollector pfx r lg ce).updateMetrics m) =
      m.PeersInfo.IndividualPeers.map
        (fun p => ⟨(NewSipCollector pfx r lg ce).peerStatus, 1,
          [p.Name, p.Status]⟩) ∧
    samplesFor (NewSipCollector pfx r lg ce).registrationStatus
        ((NewSipCollector pfx r lg ce).updateMetrics m) =
      m.RegistriesInfo.IndividualRegistrations.map
        (fun q => ⟨(NewSipCollector pfx r lg ce).registrationStatus, 1,
          [q.Username, q.State]⟩) := by
  simp [samplesFor, SipCollector.updateMetrics, NewSipCollector,
    List.filter_append, filter_map_eq_nil, filter_map_eq_self, Desc.mk.injEq]

/-! ## C7: label arity -/

/-- C7: on either branch of `Collect`, every emitted sample carries exactly
as many label values as its descriptor declares label names (the injected
health descriptor declaring one label; in particular every peer-status and
registration-status sample carries exactly 2 label values). -/
theorem sample_label_arity (pfx : String) (r : CmdRunner) (lg : Logger)
    (ce : Desc) (res : Except Err SipMetrics)
    (h : ce.variableLabels.length = 1) :
    ∀ s ∈ (NewSipCollector pfx r lg ce).collectBranch res,
      s.labelValues.length = s.desc.variableLabels.length := by
  cases res with
  | error e =>
    simp [SipCollector.collectBranch, SipCollector.Name, NewSipCollector, h]
  | ok m =>
    simp only [SipCollector.collectBranch, SipCollector.updateMetrics,
      List.forall_mem_cons, List.forall_mem_append, List.forall_mem_map]
    simp [NewSipCollector, SipCollector.Name, h]

/-- C7 witness: the arity invariant at the concrete collector, health
descriptor and runner. -/
theorem sample_label_arity_witness :
    exHealthDesc.variableLabels.length = 1 ∧
      ∀ s ∈ (NewSipCollector "asterisk" exRunner 0 exHealthDesc).collectBranch
          (collectSipMetrics exRunner),
        s.labelValues.length = s.desc.variableLabels.length :=
  ⟨rfl, sample_label_arity "asterisk" exRunner 0 exHealthDesc
    (collectSipMetrics exRunner) rfl⟩

/-! ## C8: Describe -/

/-- C8: `Describe` emits every owned descriptor exactly once (the emitted
list is exactly `ownedDescs` and has no duplicates), and its output does
not depend on the data source or on the logger — hence it is identical
across calls, regardless of scrape history (the collector holds no mutable
state). -/
theorem describe_owned_once_stable (pfx : String) (r₁ r₂ : CmdRunner)
    (lg₁ lg₂ : Logger) (ce : Desc) :
    (NewSipCollector pfx r₁ lg₁ ce).Describe =
        (NewSipCollector pfx r₁ lg₁ ce).ownedDescs ∧
      (NewSipCollector pfx r₁ lg₁ ce).Describe.Nodup ∧
      (NewSipCollector pfx r₁ lg₁ ce).Describe =
        (NewSipCollector pfx r₂ lg₂ ce).Describe := by
  refine ⟨rfl, ?_, rfl⟩
  have h : ((NewSipCollector pfx r₁ lg₁ ce).Describe.map Desc.help).Nodup := by
    simp only [NewSipCollector, SipCollector.Describe, List.map]
    decide
  exact h.of_map

/-! ## C9: construction is pure -/

/-- C9: two constructions with the same name prefix yield identical owned
descriptor identities (same fully-qualified name, help text and label
names) for every metric, whatever runner, logger and injected health
descriptor they receive. -/
theorem newSipCollector_descs_pure (pfx : String) (r₁ r₂ : CmdRunner)
    (lg₁ lg₂ : Logger) (ce₁ ce₂ : Desc) :
    (NewSipCollector pfx r₁ lg₁ ce₁).ownedDescs =
      (NewSipCollector pfx r₂ lg₂ ce₂).ownedDescs := by
  rfl

/-! ## C10: the error branch is unreachable -/

/-- C10: `collectSipMetrics` returns a `nil` error on every runner, so the
error branch of `Collect` is unreachable: every invocation of `Collect`
emits the health sample with value 0 followed by the domain samples. -/
theorem collect_error_branch_unreachable (pfx : String) (r : CmdRunner)
    (lg : Logger) (ce : Desc) :
    isErr (collectSipMetrics r) = false ∧
      (NewSipCollector pfx r lg ce).Collect =
        ⟨ce, 0, ["sip"]⟩ ::
          (NewSipCollector pfx r lg ce).updateMetrics (fetchOk r) := by
  exact ⟨rfl, rfl⟩

end Theorems

end AsteriskExporter
